import Mathlib

/-!
# Verification of the kokomemo-Android storage, search and map logic

Shallow embedding of the application logic of the kokomemo place-bookmarking
app, translated from the TypeScript sources:

* `src/lib/storage.ts` (localStorage-backed persistence: places, tabs,
  search history, settings);
* `src/lib/maps.ts` (navigation URL construction, Haversine distance,
  nearby-place search post-processing);
* `src/pages/SearchPage.tsx` (debounced input handling and the merge of
  nearby / autocomplete search results);
* `src/components/InteractiveMap.tsx` (live-location smoothing and
  device-heading conversion).

JavaScript numbers are modelled as exact rationals (`ℚ`) where only field
arithmetic and comparisons occur, and as real numbers (`ℝ`) where the code
uses transcendental functions (`Math.sin`, `Math.cos`, `Math.atan2`,
`Math.sqrt`).  `JSON.parse`/`JSON.stringify` round-tripping is modelled by a
`Cell` type that distinguishes an absent key, an unparseable string, and a
successfully stored value.  Externally generated data (UUIDs, ISO
timestamps, API responses) enter the functions as explicit parameters.
-/

namespace Kokomemo

/-! ## Data model (`src/types/index.ts`) -/

/-- A bookmarked place (`interface Place`). -/
structure Place where
  id : String
  name : String
  memo : String
  address : String
  latitude : ℚ
  longitude : ℚ
  tabId : String
  createdAt : String
  updatedAt : String
deriving DecidableEq, Repr

/-- A category tab (`interface Tab`). -/
structure Tab where
  id : String
  name : String
  isCustom : Bool
  order : ℚ
deriving DecidableEq, Repr

/-- A search-history entry (`interface SearchHistory`). -/
structure SearchHistory where
  query : String
  placeId : Option String
  timestamp : String
deriving DecidableEq, Repr

/-- The navigation travel mode (`AppSettings['travelMode']`). -/
inductive TravelMode where
  | driving
  | transit
  | walking
deriving DecidableEq, Repr

/-- Application settings (`interface AppSettings`). -/
structure AppSettings where
  travelMode : TravelMode
deriving DecidableEq, Repr

/-- The built-in tabs (`DEFAULT_TABS`). -/
def DEFAULT_TABS : List Tab :=
  [ ⟨"all", "すべて", false, 0⟩,
    ⟨"frequent", "よく行く", false, 1⟩,
    ⟨"planned", "今度行く", false, 2⟩,
    ⟨"revisit", "また来る", false, 3⟩,
    ⟨"work", "仕事", false, 4⟩,
    ⟨"rest", "休憩場所", false, 5⟩,
    ⟨"convenience", "コンビニ", false, 6⟩,
    ⟨"toilet", "トイレ", false, 7⟩,
    ⟨"other", "その他", false, 8⟩ ]

/-- The default settings (`DEFAULT_SETTINGS`). -/
def DEFAULT_SETTINGS : AppSettings := ⟨TravelMode.driving⟩

/-! ## localStorage cells and `safeJsonParse` (`src/lib/storage.ts`) -/

/-- One localStorage key as seen through `JSON.parse`: the key can be absent
(`localStorage.getItem` returns `null`), hold a string that is not valid
JSON for the expected shape (`JSON.parse` throws), or hold the JSON
serialisation of a value `v`. -/
inductive Cell (α : Type) where
  | absent
  | corrupt
  | stored (v : α)
deriving DecidableEq, Repr

/-- `safeJsonParse` (storage.ts lines 88-95): returns the parsed value when
the item exists and parses, and `defaultValue` when the item is absent or
`JSON.parse` throws. -/
def safeJsonParse {α : Type} (c : Cell α) (defaultValue : α) : α :=
  match c with
  | Cell.absent => defaultValue
  | Cell.corrupt => defaultValue
  | Cell.stored v => v

/-- `getPlaces` (storage.ts lines 98-100). -/
def getPlaces (c : Cell (List Place)) : List Place :=
  safeJsonParse c []

/-- Input to `savePlace`: `Omit<Place, 'id' | 'createdAt' | 'updatedAt'>`. -/
structure PlaceInput where
  name : String
  memo : String
  address : String
  latitude : ℚ
  longitude : ℚ
  tabId : String
deriving DecidableEq, Repr

/-- `savePlace` (storage.ts lines 102-114).  The generated `uuidv4()` and the
current ISO timestamp `new Date().toISOString()` are passed in as the
parameters `id` and `now`.  Returns the updated place list and the new
place. -/
def savePlace (place : PlaceInput) (id now : String) (places : List Place) :
    List Place × Place :=
  let newPlace : Place :=
    { id := id
      name := place.name
      memo := place.memo
      address := place.address
      latitude := place.latitude
      longitude := place.longitude
      tabId := place.tabId
      createdAt := now
      updatedAt := now }
  (places ++ [newPlace], newPlace)

/-- `getTabs` (storage.ts lines 148-167).  Reads the stored tabs; when none
are stored it persists and returns `DEFAULT_TABS`; otherwise it merges in
any default tabs missing from the stored data, sorting by `order`
(`Array.prototype.sort` with comparator `a.order - b.order`, modelled by a
stable merge sort on `≤`).  Returns the tab list together with the updated
cell. -/
def getTabs (c : Cell (List Tab)) : List Tab × Cell (List Tab) :=
  let storedTabs := safeJsonParse c []
  if storedTabs.length = 0 then
    (DEFAULT_TABS, Cell.stored DEFAULT_TABS)
  else
    let existingIds := storedTabs.map Tab.id
    let newDefaultTabs := DEFAULT_TABS.filter (fun t => !(existingIds.contains t.id))
    if 0 < newDefaultTabs.length then
      let mergedTabs :=
        (storedTabs ++ newDefaultTabs).mergeSort (fun a b => decide (a.order ≤ b.order))
      (mergedTabs, Cell.stored mergedTabs)
    else
      (storedTabs, c)

/-- `addCustomTab` (storage.ts lines 173-188), applied to the tab list that
`getTabs()` returned.  The generated `uuidv4()` is the parameter `id`.
Returns the function's return value together with the stored tab list after
the call.  `Math.max(...tabs.map(t => t.order))` is `-Infinity` on an empty
list, which has no rational counterpart; the model uses `max?.getD 0` there,
and the theorems about the new tab's order assume a nonempty tab list (as
guaranteed by `getTabs`, which never returns fewer than `DEFAULT_TABS`). -/
def addCustomTab (name : String) (id : String) (tabs : List Tab) :
    Option Tab × List Tab :=
  let customTabs := tabs.filter (fun t => t.isCustom)
  if 5 ≤ customTabs.length then
    (none, tabs)
  else
    let maxOrder := ((tabs.map Tab.order).max?).getD 0
    let newTab : Tab := { id := id, name := name, isCustom := true, order := maxOrder + 1 }
    (some newTab, tabs ++ [newTab])

/-- `getSearchHistory` (storage.ts lines 219-221). -/
def getSearchHistory (c : Cell (List SearchHistory)) : List SearchHistory :=
  safeJsonParse c []

/-- `addSearchHistory` (storage.ts lines 223-237), applied to the parsed
history list.  The current ISO timestamp is the parameter `timestamp`.
Removes queries equal to the new one, prepends the new entry (`unshift`) and
keeps the first 20 entries (`slice(0, 20)`). -/
def addSearchHistory (query : String) (placeId : Option String)
    (timestamp : String) (history : List SearchHistory) : List SearchHistory :=
  let newEntry : SearchHistory := ⟨query, placeId, timestamp⟩
  let filtered := history.filter (fun h => !(h.query == query))
  ((newEntry :: filtered).take 20)

/-- `getSettings` (storage.ts lines 244-246). -/
def getSettings (c : Cell AppSettings) : AppSettings :=
  safeJsonParse c DEFAULT_SETTINGS

/-! ## Navigation URL (`src/lib/maps.ts`) -/

/-- The string interpolated for a travel mode in the navigation URL. -/
def TravelMode.str : TravelMode → String
  | TravelMode.driving => "driving"
  | TravelMode.transit => "transit"
  | TravelMode.walking => "walking"

/-- `openNavigation` (maps.ts lines 257-264): builds the Google Maps
directions URL passed to `window.open(url, '_blank')` and returns it.  The
JavaScript rendering of the two coordinate numbers into decimal strings is
abstracted: `latitude` and `longitude` are the rendered strings.  The travel
mode defaults to `'driving'`. -/
def openNavigation (latitude longitude : String)
    (travelMode : TravelMode := TravelMode.driving) : String :=
  "https://www.google.com/maps/dir/?api=1&destination=" ++ latitude ++ "," ++
    longitude ++ "&travelmode=" ++ travelMode.str

/-! ## Nearby place search (`src/lib/maps.ts`) -/

/-- A latitude/longitude pair as used for the search origin
(`{ lat: number; lng: number }`), over exact reals. -/
structure LatLngR where
  lat : ℝ
  lng : ℝ

/-- `Math.atan2 y x`: the standard two-argument arctangent. -/
noncomputable def atan2 (y x : ℝ) : ℝ :=
  if 0 < x then Real.arctan (y / x)
  else if x < 0 then
    (if 0 ≤ y then Real.arctan (y / x) + Real.pi else Real.arctan (y / x) - Real.pi)
  else
    (if 0 < y then Real.pi / 2 else if y < 0 then -(Real.pi / 2) else 0)

/-- `calculateDistance` (maps.ts lines 637-645): the Haversine great-circle
distance in metres, with earth radius `R = 6371000`. -/
noncomputable def calculateDistance (lat1 lng1 lat2 lng2 : ℝ) : ℝ :=
  let R : ℝ := 6371000
  let dLat := (lat2 - lat1) * Real.pi / 180
  let dLng := (lng2 - lng1) * Real.pi / 180
  let a := Real.sin (dLat / 2) ^ 2 +
    Real.cos (lat1 * Real.pi / 180) * Real.cos (lat2 * Real.pi / 180) *
    Real.sin (dLng / 2) ^ 2
  R * 2 * atan2 (Real.sqrt a) (Real.sqrt (1 - a))

/-- One element of `data.places` in the Text Search response, restricted to
the requested field mask `places.id,places.displayName,places.formattedAddress,
places.location`.  Fields absent from the JSON are `none`. -/
structure RawPlace where
  id : Option String
  displayName : Option String
  formattedAddress : Option String
  location : Option LatLngR

/-- An element of the list returned by `searchNearbyPlaces`
(`interface NearbyPlaceResult`). -/
structure NearbyPlaceResult where
  placeId : String
  name : String
  address : String
  latitude : ℝ
  longitude : ℝ
  distanceMeters : ℝ

/-- `(place.id || '').replace(/^places\//, '')`: strips a leading
`places/`. -/
def normalizePlaceId (s : String) : String :=
  if s.startsWith "places/" then s.drop 7 else s

/-- The `data.places.map(...)` step of `searchNearbyPlaces` (maps.ts lines
706-716): one raw place is turned into a `NearbyPlaceResult`, with missing
coordinates defaulting to `0` (`place.location?.latitude || 0`) and
`distanceMeters` computed from the origin by `calculateDistance`. -/
noncomputable def toNearbyPlaceResult (location : LatLngR) (place : RawPlace) :
    NearbyPlaceResult :=
  let lat := (place.location.map LatLngR.lat).getD 0
  let lng := (place.location.map LatLngR.lng).getD 0
  { placeId := normalizePlaceId (place.id.getD "")
    name := place.displayName.getD ""
    address := place.formattedAddress.getD ""
    latitude := lat
    longitude := lng
    distanceMeters := calculateDistance location.lat location.lng lat lng }

/-- `searchNearbyPlaces` (maps.ts lines 649-730), success path: the network
fetch is abstracted away and the parsed `data.places` array is the parameter
`places` (the error paths all return `[]`).  Maps each raw place through
`toNearbyPlaceResult` and sorts by `distanceMeters` ascending
(`.sort((a, b) => a.distanceMeters - b.distanceMeters)`, modelled by a
stable merge sort on `≤`). -/
noncomputable def searchNearbyPlaces (location : LatLngR) (places : List RawPlace) :
    List NearbyPlaceResult :=
  (places.map (toNearbyPlaceResult location)).mergeSort
    (fun a b => decide (a.distanceMeters ≤ b.distanceMeters))

/-! ## Suggestion merging (`src/pages/SearchPage.tsx`, `executeSearch`) -/

/-- An element of the list returned by `searchAutocomplete`
(`interface AutocompleteResult`); `distanceMeters` is optional. -/
structure AutocompleteResult where
  placeId : String
  mainText : String
  secondaryText : String
  distanceMeters : Option ℝ

/-- A search suggestion displayed by `SearchPage` (`interface Suggestion`). -/
structure Suggestion where
  text : String
  description : String
  placeId : String
  distanceMeters : Option ℝ

/-- The `Suggestion` built from a nearby result (SearchPage.tsx lines
279-284). -/
def nearbySuggestion (r : NearbyPlaceResult) : Suggestion :=
  { text := r.name
    description := r.address
    placeId := r.placeId
    distanceMeters := some r.distanceMeters }

/-- The `Suggestion` built from an autocomplete result (SearchPage.tsx lines
287-292). -/
def autocompleteSuggestion (r : AutocompleteResult) : Suggestion :=
  { text := r.mainText
    description := r.secondaryText
    placeId := r.placeId
    distanceMeters := r.distanceMeters }

/-- Steps 3-4 of `executeSearch` (SearchPage.tsx lines 277-295): collect the
nearby results' placeIds in a set, drop the autocomplete results whose
placeId is in that set, and list the nearby suggestions first followed by
the surviving autocomplete suggestions. -/
def executeSearchMerge (nearbyResults : List NearbyPlaceResult)
    (autocompleteResults : List AutocompleteResult) : List Suggestion :=
  let nearbyIds := nearbyResults.map NearbyPlaceResult.placeId
  let nearbySuggestions := nearbyResults.map nearbySuggestion
  let autocompleteSuggestions :=
    (autocompleteResults.filter (fun r => !(nearbyIds.contains r.placeId))).map
      autocompleteSuggestion
  nearbySuggestions ++ autocompleteSuggestions

/-! ## Debounced input handling (`src/pages/SearchPage.tsx`,
`handleInputChange`) -/

/-- JavaScript `String.prototype.trim` on a character list: strips leading
and trailing whitespace. -/
def jsTrimList (cs : List Char) : List Char :=
  ((cs.dropWhile Char.isWhitespace).reverse.dropWhile Char.isWhitespace).reverse

/-- JavaScript `value.trim()`. -/
def jsTrim (s : String) : String :=
  String.mk (jsTrimList s.data)

/-- The place selected on the search page (`interface PlaceResult`). -/
structure PlaceResult where
  placeId : String
  name : String
  address : String
  postalCode : Option String
  latitude : ℝ
  longitude : ℝ

/-- A pending `setTimeout` callback scheduled by `handleInputChange`: the
browser timer id, the query that `executeSearch` will receive, and the time
at which it fires (milliseconds). -/
structure PendingSearch where
  timerId : ℕ
  searchQuery : String
  fireAt : ℕ

/-- The `SearchPage` component state touched by `handleInputChange`:
`query`, `selectedPlace`, `suggestions`, `isSearching`, the set of pending
debounce timers, and `debounceRef` (the id of the last scheduled timer, or
`none`). -/
structure SearchPageState where
  query : String
  selectedPlace : Option PlaceResult
  suggestions : List Suggestion
  isSearching : Bool
  pendingTimers : List PendingSearch
  debounceRef : Option ℕ

/-- `handleInputChange` (SearchPage.tsx lines 304-323) at time `now` (ms),
where `freshId` is the timer id returned by `window.setTimeout`: stores the
new query, clears the selected place, cancels the timer named by
`debounceRef` (`clearTimeout`), and then either — for an empty/whitespace
query — clears the suggestions and stops the searching indicator without
scheduling anything, or schedules `executeSearch(value)` to run 800 ms
later. -/
def handleInputChange (value : String) (now freshId : ℕ)
    (s : SearchPageState) : SearchPageState :=
  let timers :=
    match s.debounceRef with
    | some i => s.pendingTimers.filter (fun t => !(t.timerId == i))
    | none => s.pendingTimers
  if jsTrim value = "" then
    { s with
        query := value
        selectedPlace := none
        pendingTimers := timers
        suggestions := []
        isSearching := false }
  else
    { s with
        query := value
        selectedPlace := none
        pendingTimers := timers ++ [⟨freshId, value, now + 800⟩]
        debounceRef := some freshId
        isSearching := true }

/-- The debounce invariant maintained by `SearchPage`: at most one debounced
search is pending, and any pending timer is the one named by
`debounceRef`. -/
def DebounceInv (s : SearchPageState) : Prop :=
  s.pendingTimers.length ≤ 1 ∧
    ∀ t ∈ s.pendingTimers, some t.timerId = s.debounceRef

/-! ## Live-location smoothing (`src/components/InteractiveMap.tsx`,
`animate`) -/

/-- A latitude/longitude pair over exact rationals, for the arithmetic-only
map code. -/
structure LatLng where
  lat : ℚ
  lng : ℚ
deriving DecidableEq, Repr

/-- `Math.abs` on a rational. -/
def jsAbs (q : ℚ) : ℚ :=
  if q < 0 then -q else q

/-- One step of the `animate` closure (InteractiveMap.tsx lines 99-120):
from the current smoothed position and the target position, compute the
linear interpolation with factor `0.15`; when the resulting position is
within `0.0000001` of the target (ℓ¹ distance), snap to the target and stop
(no further animation frame is requested).  Returns the new smoothed
position and whether the animation continues. -/
def animate (current target : LatLng) : LatLng × Bool :=
  let factor : ℚ := 0.15
  let newLat := current.lat + (target.lat - current.lat) * factor
  let newLng := current.lng + (target.lng - current.lng) * factor
  let dist := jsAbs (target.lat - newLat) + jsAbs (target.lng - newLng)
  if dist < 0.0000001 then
    (target, false)
  else
    ({ lat := newLat, lng := newLng }, true)

/-! ## Device heading (`src/components/InteractiveMap.tsx`,
`handleAbsoluteOrientation`) -/

/-- Truncation towards zero, as used by the JavaScript `%` operator. -/
def truncQ (q : ℚ) : ℤ :=
  if 0 ≤ q then ⌊q⌋ else ⌈q⌉

/-- The JavaScript remainder `a % b`: `a - b * trunc(a / b)` (sign of the
dividend). -/
def jsRem (a b : ℚ) : ℚ :=
  a - b * (truncQ (a / b) : ℚ)

/-- `handleAbsoluteOrientation` (InteractiveMap.tsx lines 150-158): on a
`deviceorientationabsolute` event with `alpha` the counterclockwise-from-
north angle (or `none` when null), the displayed heading becomes
`(360 - alpha) % 360`; a null alpha leaves the heading unchanged. -/
def handleAbsoluteOrientation (alpha : Option ℚ) (heading : Option ℚ) :
    Option ℚ :=
  match alpha with
  | some a => some (jsRem (360 - a) 360)
  | none => heading

/-! ## Theorems -/

/-- C6: for every input record, `savePlace` appends exactly one new place
carrying the input's field values, with the freshly generated id and with
`createdAt` equal to `updatedAt`, and leaves every previously stored place
unchanged in content and order. -/
theorem savePlace_appends (place : PlaceInput) (id now : String)
    (places : List Place) :
    (savePlace place id now places).1 =
        places ++ [(savePlace place id now places).2] ∧
      (savePlace place id now places).2 =
        { id := id
          name := place.name
          memo := place.memo
          address := place.address
          latitude := place.latitude
          longitude := place.longitude
          tabId := place.tabId
          createdAt := now
          updatedAt := now } ∧
      (savePlace place id now places).2.createdAt =
        (savePlace place id now places).2.updatedAt ∧
      (savePlace place id now places).1.take places.length = places := by
  refine ⟨rfl, rfl, rfl, ?_⟩
  simp [savePlace, List.take_left]

/-- C7: `openNavigation` opens exactly the Google Maps directions URL with
the given destination coordinates and travel mode, and the travel mode
defaults to `'driving'` when unspecified. -/
theorem openNavigation_url (latitude longitude : String)
    (travelMode : TravelMode) :
    openNavigation latitude longitude travelMode =
        "https://www.google.com/maps/dir/?api=1&destination=" ++ latitude ++
          "," ++ longitude ++ "&travelmode=" ++ travelMode.str ∧
      openNavigation latitude longitude =
        openNavigation latitude longitude TravelMode.driving :=
  ⟨rfl, rfl⟩

/-- C8: when the stored string is absent or is not valid JSON, each read
operation returns its default instead of throwing: `getPlaces` and
`getSearchHistory` return `[]`, `getSettings` returns `DEFAULT_SETTINGS`,
and `getTabs` returns (and persists) `DEFAULT_TABS`. -/
theorem storage_reads_default :
    getPlaces Cell.absent = [] ∧ getPlaces Cell.corrupt = [] ∧
      getSearchHistory Cell.absent = [] ∧ getSearchHistory Cell.corrupt = [] ∧
      getSettings Cell.absent = DEFAULT_SETTINGS ∧
      getSettings Cell.corrupt = DEFAULT_SETTINGS ∧
      getTabs Cell.absent = (DEFAULT_TABS, Cell.stored DEFAULT_TABS) ∧
      getTabs Cell.corrupt = (DEFAULT_TABS, Cell.stored DEFAULT_TABS) :=
  ⟨rfl, rfl, rfl, rfl, rfl, rfl, rfl, rfl⟩

/-- C9: after every call to `addSearchHistory`, the history is the new entry
(carrying the given query and placeId) followed by the first 19 surviving
older entries, hence has at most 20 entries with the new entry first; the
surviving older entries keep their relative order (they form a sublist of
the old history); and when the old history had pairwise-distinct query
texts, so does the new one. -/
theorem addSearchHistory_invariant (query : String) (placeId : Option String)
    (timestamp : String) (history : List SearchHistory) :
    addSearchHistory query placeId timestamp history =
        (⟨query, placeId, timestamp⟩ : SearchHistory) ::
          (history.filter (fun h => !(h.query == query))).take 19 ∧
      (addSearchHistory query placeId timestamp history).length ≤ 20 ∧
      (addSearchHistory query placeId timestamp history).head? =
        some ⟨query, placeId, timestamp⟩ ∧
      ((history.filter (fun h => !(h.query == query))).take 19).Sublist
        history ∧
      ((history.map SearchHistory.query).Nodup →
        ((addSearchHistory query placeId timestamp history).map
            SearchHistory.query).Nodup) := by
  have heq : addSearchHistory query placeId timestamp history =
      (⟨query, placeId, timestamp⟩ : SearchHistory) ::
        (history.filter (fun h => !(h.query == query))).take 19 := by
    show ((⟨query, placeId, timestamp⟩ : SearchHistory) ::
        history.filter (fun h => !(h.query == query))).take 20 = _
    rw [show (20 : ℕ) = 19 + 1 from rfl, List.take_succ_cons]
  have hsub : ((history.filter (fun h => !(h.query == query))).take 19).Sublist
      history :=
    (List.take_sublist _ _).trans (List.filter_sublist _)
  refine ⟨heq, ?_, ?_, hsub, ?_⟩
  · rw [heq]
    have := List.length_take 19 (history.filter (fun h => !(h.query == query)))
    simp only [List.length_cons, this]
    omega
  · rw [heq]; rfl
  · intro hnodup
    rw [heq, List.map_cons]
    refine List.nodup_cons.mpr ⟨?_, ?_⟩
    · intro hmem
      obtain ⟨e, he, hq⟩ := List.mem_map.mp hmem
      have he' := (List.mem_filter.mp (List.mem_of_mem_take he)).2
      simp only [Bool.not_eq_true', beq_eq_false_iff_ne, ne_eq] at he'
      exact he' hq
    · exact (hsub.map SearchHistory.query).nodup hnodup

/-- Concrete instance of `addSearchHistory_invariant`: adding the query
`"cafe"` to a one-entry history with distinct queries yields a duplicate-free
query list. -/
theorem addSearchHistory_invariant_witness :
    ((addSearchHistory "cafe" none "t1"
        [⟨"station", none, "t0"⟩]).map SearchHistory.query).Nodup :=
  (addSearchHistory_invariant "cafe" none "t1"
      [⟨"station", none, "t0"⟩]).2.2.2.2 (by decide)

/-- C10: `addCustomTab` returns `null` and leaves the stored tab list
unchanged whenever five (or more) custom tabs already exist; otherwise it
appends exactly one new custom tab with the given name whose `order` is one
greater than the maximum `order` among all existing tabs. -/
theorem addCustomTab_spec (name id : String) (tabs : List Tab) :
    (5 ≤ (tabs.filter (fun t => t.isCustom)).length →
        addCustomTab name id tabs = (none, tabs)) ∧
      ((tabs.filter (fun t => t.isCustom)).length < 5 →
        ∀ m ∈ (tabs.map Tab.order).max?,
          addCustomTab name id tabs =
              (some ⟨id, name, true, m + 1⟩, tabs ++ [⟨id, name, true, m + 1⟩]) ∧
            m ∈ tabs.map Tab.order ∧ ∀ t ∈ tabs, t.order ≤ m) := by
  constructor
  · intro h
    unfold addCustomTab
    rw [if_pos h]
  · intro h m hm
    rw [Option.mem_def] at hm
    refine ⟨?_, List.max?_mem max_choice hm, ?_⟩
    · unfold addCustomTab
      rw [if_neg (by omega)]
      simp [hm]
    · intro t ht
      have := (List.max?_le_iff (fun _ _ _ => max_le_iff) hm).mp le_rfl
      exact this t.order (List.mem_map_of_mem Tab.order ht)

/-- Concrete instance of `addCustomTab_spec`: adding a custom tab to a
one-tab list appends a custom tab of order one greater than the maximum. -/
theorem addCustomTab_spec_witness :
    addCustomTab "メモ" "u1" [⟨"all", "すべて", false, 0⟩] =
        (some ⟨"u1", "メモ", true, 0 + 1⟩,
          [⟨"all", "すべて", false, 0⟩] ++ [⟨"u1", "メモ", true, 0 + 1⟩]) ∧
      (0 : ℚ) ∈ [(⟨"all", "すべて", false, 0⟩ : Tab)].map Tab.order ∧
      ∀ t ∈ [(⟨"all", "すべて", false, 0⟩ : Tab)], t.order ≤ 0 :=
  (addCustomTab_spec "メモ" "u1" [⟨"all", "すべて", false, 0⟩]).2
    (by decide) 0 rfl

/-- C3: every interpolation step of the smoothing animation moves the
current position `c` to `c + (t − c) × 0.15` in each coordinate and keeps
animating, except that when the ℓ¹ distance between the target and this new
position is below `0.0000001` the position snaps exactly to the target and
the animation stops. -/
theorem animate_lerp_step (current target : LatLng) :
    (jsAbs (target.lat - (current.lat + (target.lat - current.lat) * 0.15)) +
          jsAbs (target.lng - (current.lng + (target.lng - current.lng) * 0.15)) <
        0.0000001 →
      animate current target = (target, false)) ∧
    (¬ (jsAbs (target.lat - (current.lat + (target.lat - current.lat) * 0.15)) +
          jsAbs (target.lng - (current.lng + (target.lng - current.lng) * 0.15)) <
        0.0000001) →
      animate current target =
        ({ lat := current.lat + (target.lat - current.lat) * 0.15
           lng := current.lng + (target.lng - current.lng) * 0.15 }, true)) := by
  constructor
  · intro h
    unfold animate
    rw [if_pos h]
  · intro h
    unfold animate
    rw [if_neg h]

/-- Concrete instance of `animate_lerp_step`: from `(0, 0)` towards `(1, 0)`
the step is far from the target, so it interpolates and keeps animating. -/
theorem animate_lerp_step_witness :
    animate ⟨0, 0⟩ ⟨1, 0⟩ =
      ({ lat := 0 + (1 - 0) * 0.15, lng := 0 + (0 - 0) * 0.15 }, true) :=
  (animate_lerp_step ⟨0, 0⟩ ⟨1, 0⟩).2 (by norm_num [jsAbs])

/-- C5: on an absolute device-orientation event with non-null `alpha`, the
displayed heading becomes `(360 − alpha) % 360`, and for every `alpha` in
`[0, 360]` this value lies in `[0, 360)`. -/
theorem handleAbsoluteOrientation_heading (a : ℚ) (heading : Option ℚ) :
    handleAbsoluteOrientation (some a) heading = some (jsRem (360 - a) 360) ∧
      (0 ≤ a → a ≤ 360 →
        0 ≤ jsRem (360 - a) 360 ∧ jsRem (360 - a) 360 < 360) := by
  refine ⟨rfl, ?_⟩
  intro h0 h360
  have hx0 : (0 : ℚ) ≤ 360 - a := by linarith
  have hq0 : (0 : ℚ) ≤ (360 - a) / 360 := by positivity
  unfold jsRem truncQ
  rw [if_pos hq0]
  rcases lt_or_eq_of_le h0 with hlt | heq
  · have hfl : ⌊(360 - a) / 360⌋ = 0 := by
      rw [Int.floor_eq_zero_iff]
      exact ⟨hq0, by rw [div_lt_one (by norm_num)]; linarith⟩
    rw [hfl]
    push_cast
    constructor <;> linarith
  · have ha : a = 0 := heq.symm
    subst ha
    norm_num

/-- Concrete instance of `handleAbsoluteOrientation_heading`: at
`alpha = 90` the heading `(360 − 90) % 360` lies in `[0, 360)`. -/
theorem handleAbsoluteOrientation_heading_witness :
    0 ≤ jsRem (360 - 90) 360 ∧ jsRem (360 - 90) 360 < 360 :=
  (handleAbsoluteOrientation_heading 90 none).2 (by norm_num) (by norm_num)

/-- C4: under the debounce invariant, every input change cancels whatever
search was scheduled and — for a nonempty trimmed query — schedules exactly
one search to run 800 ms later, preserving the invariant that at most one
debounced search is pending; an input change to an empty or whitespace-only
query leaves no search scheduled, clears the suggestion list, and marks
searching as finished. -/
theorem handleInputChange_debounce (value : String) (now freshId : ℕ)
    (s : SearchPageState) (hInv : DebounceInv s) :
    DebounceInv (handleInputChange value now freshId s) ∧
      (jsTrim value = "" →
        (handleInputChange value now freshId s).pendingTimers = [] ∧
          (handleInputChange value now freshId s).suggestions = [] ∧
          (handleInputChange value now freshId s).isSearching = false) ∧
      (jsTrim value ≠ "" →
        (handleInputChange value now freshId s).pendingTimers =
            [⟨freshId, value, now + 800⟩] ∧
          (handleInputChange value now freshId s).isSearching = true) := by
  obtain ⟨hlen, href⟩ := hInv
  have hclear : (match s.debounceRef with
      | some i => s.pendingTimers.filter (fun t => !(t.timerId == i))
      | none => s.pendingTimers) = [] := by
    cases h : s.debounceRef with
    | none =>
      cases hp : s.pendingTimers with
      | nil => rfl
      | cons t ts =>
        have := href t (by rw [hp]; exact List.mem_cons_self t ts)
        rw [h] at this
        exact absurd this (by simp)
    | some i =>
      apply List.filter_eq_nil_iff.mpr
      intro t ht
      have := href t ht
      rw [h, Option.some_inj] at this
      simp [this]
  by_cases he : jsTrim value = ""
  · have hres : handleInputChange value now freshId s =
        { s with
            query := value
            selectedPlace := none
            pendingTimers := []
            suggestions := []
            isSearching := false } := by
      unfold handleInputChange
      rw [hclear, if_pos he]
    refine ⟨?_, fun _ => ⟨?_, ?_, ?_⟩, fun hne => absurd he hne⟩ <;>
      simp [hres, DebounceInv]
  · have hres : handleInputChange value now freshId s =
        { s with
            query := value
            selectedPlace := none
            pendingTimers := [⟨freshId, value, now + 800⟩]
            debounceRef := some freshId
            isSearching := true } := by
      unfold handleInputChange
      rw [hclear, if_neg he]
      rfl
    refine ⟨?_, fun h0 => absurd h0 he, fun _ => ⟨?_, ?_⟩⟩ <;>
      simp [hres, DebounceInv]

/-- Concrete instance of `handleInputChange_debounce`: typing `"cafe"` while
a search for `"caf"` is pending cancels the pending search and schedules
exactly one new search 800 ms later. -/
theorem handleInputChange_debounce_witness :
    (handleInputChange "cafe" 1000 7
        ⟨"caf", none, [], true, [⟨3, "caf", 900⟩], some 3⟩).pendingTimers =
        [⟨7, "cafe", 1000 + 800⟩] ∧
      (handleInputChange "cafe" 1000 7
        ⟨"caf", none, [], true, [⟨3, "caf", 900⟩], some 3⟩).isSearching = true :=
  (handleInputChange_debounce "cafe" 1000 7
      ⟨"caf", none, [], true, [⟨3, "caf", 900⟩], some 3⟩
      ⟨by decide, by decide⟩).2.2 (by decide)

/-- C1 counterexample: when the nearby result list itself repeats a placeId
(the merge never deduplicates within the nearby results), the merged
suggestion list does contain the same placeId twice, so "no placeId appears
twice in the merged list" fails for arbitrary input lists. -/
theorem executeSearchMerge_dup_counterexample :
    ¬ ((executeSearchMerge
          [⟨"a", "n", "ad", 0, 0, 0⟩, ⟨"a", "n", "ad", 0, 0, 0⟩]
          []).map Suggestion.placeId).Nodup := by
  decide

/-- C1 (amended): the merged suggestion list consists of all nearby results
first, followed by exactly those autocomplete results whose placeId does not
occur among the nearby results' placeIds; and — provided the nearby results
have pairwise-distinct placeIds and so do the autocomplete results — no
placeId appears twice in the merged list. -/
theorem executeSearchMerge_correct (nearbyResults : List NearbyPlaceResult)
    (autocompleteResults : List AutocompleteResult) :
    executeSearchMerge nearbyResults autocompleteResults =
        nearbyResults.map nearbySuggestion ++
          (autocompleteResults.filter (fun r =>
            decide (r.placeId ∉
              nearbyResults.map NearbyPlaceResult.placeId))).map
            autocompleteSuggestion ∧
      ((nearbyResults.map NearbyPlaceResult.placeId).Nodup →
        (autocompleteResults.map AutocompleteResult.placeId).Nodup →
        ((executeSearchMerge nearbyResults autocompleteResults).map
            Suggestion.placeId).Nodup) := by
  have hfilter : autocompleteResults.filter (fun r =>
        !((nearbyResults.map NearbyPlaceResult.placeId).contains r.placeId)) =
      autocompleteResults.filter (fun r =>
        decide (r.placeId ∉ nearbyResults.map NearbyPlaceResult.placeId)) := by
    apply List.filter_congr
    intro r _
    rw [List.contains, List.elem_eq_mem, decide_not]
  constructor
  · simp only [executeSearchMerge]
    rw [hfilter]
  · intro hn ha
    have hmap : (executeSearchMerge nearbyResults autocompleteResults).map
        Suggestion.placeId =
          nearbyResults.map NearbyPlaceResult.placeId ++
            (autocompleteResults.filter (fun r =>
              decide (r.placeId ∉
                nearbyResults.map NearbyPlaceResult.placeId))).map
              AutocompleteResult.placeId := by
      simp only [executeSearchMerge]
      rw [hfilter, List.map_append, List.map_map, List.map_map]
      rfl
    rw [hmap, List.nodup_append]
    refine ⟨hn, ((List.filter_sublist _).map _).nodup ha, ?_⟩
    intro x hx hx2
    obtain ⟨r, hr, rfl⟩ := List.mem_map.mp hx2
    have hnot := (List.mem_filter.mp hr).2
    rw [decide_eq_true_eq] at hnot
    exact hnot hx

/-- Concrete instance of `executeSearchMerge_correct`: one nearby result and
two autocomplete results, each side duplicate-free, merge without any
repeated placeId. -/
theorem executeSearchMerge_correct_witness :
    ((executeSearchMerge [⟨"a", "n", "ad", 0, 0, 0⟩]
        [⟨"a", "m", "s", none⟩, ⟨"b", "m2", "s2", none⟩]).map
        Suggestion.placeId).Nodup :=
  (executeSearchMerge_correct [⟨"a", "n", "ad", 0, 0, 0⟩]
      [⟨"a", "m", "s", none⟩, ⟨"b", "m2", "s2", none⟩]).2
    (by decide) (by decide)

/-- C2: `searchNearbyPlaces` returns its result list sorted in
non-decreasing order of `distanceMeters`, and each result's
`distanceMeters` is the Haversine great-circle distance (earth radius
6371000 m) between the origin and that result's coordinates. -/
theorem searchNearbyPlaces_sorted_haversine (location : LatLngR)
    (places : List RawPlace) :
    List.Sorted (fun a b : NearbyPlaceResult =>
        a.distanceMeters ≤ b.distanceMeters)
      (searchNearbyPlaces location places) ∧
      ∀ r ∈ searchNearbyPlaces location places,
        r.distanceMeters =
          calculateDistance location.lat location.lng r.latitude
            r.longitude := by
  constructor
  · have h := @List.sorted_mergeSort NearbyPlaceResult
      (fun a b : NearbyPlaceResult =>
        decide (a.distanceMeters ≤ b.distanceMeters))
      (fun a b c hab hbc => by
        rw [decide_eq_true_eq] at *
        exact le_trans hab hbc)
      (fun a b => by
        rw [Bool.or_eq_true, decide_eq_true_eq, decide_eq_true_eq]
        exact le_total _ _)
      (places.map (toNearbyPlaceResult location))
    unfold searchNearbyPlaces
    exact h.imp (fun hab => by rwa [decide_eq_true_eq] at hab)
  · intro r hr
    rw [searchNearbyPlaces, List.mem_mergeSort] at hr
    obtain ⟨p, _, rfl⟩ := List.mem_map.mp hr
    rfl

/-- Concrete instance of `searchNearbyPlaces_sorted_haversine`: the single
result of a one-place response carries the Haversine distance from the
origin to its own coordinates. -/
theorem searchNearbyPlaces_sorted_haversine_witness :
    (toNearbyPlaceResult ⟨0, 0⟩
        ⟨some "places/x", some "n", some "ad", some ⟨1, 2⟩⟩).distanceMeters =
      calculateDistance (0 : ℝ) 0
        (toNearbyPlaceResult ⟨0, 0⟩
          ⟨some "places/x", some "n", some "ad", some ⟨1, 2⟩⟩).latitude
        (toNearbyPlaceResult ⟨0, 0⟩
          ⟨some "places/x", some "n", some "ad", some ⟨1, 2⟩⟩).longitude :=
  (searchNearbyPlaces_sorted_haversine ⟨0, 0⟩
      [⟨some "places/x", some "n", some "ad", some ⟨1, 2⟩⟩]).2 _
    (by rw [searchNearbyPlaces, List.map_singleton, List.mergeSort_singleton]
        exact List.mem_singleton_self _)

end Kokomemo
